import Mathlib

/-!
Verification of the ElderCareAI real-time companion chat and risk-assessment
pipeline (`src/backend/ai-chat-service` and the risk assessor module) against
its natural-language specification.  The TypeScript sources are shallowly
embedded as executable Lean definitions; loops become folds, mutable maps
become update functions, and the external generative-AI calls become explicit
outcome parameters.
-/

set_option maxHeartbeats 1000000

namespace ElderCare

/-- Role of one chat turn, from `types.ts` (`'user' | 'assistant' | 'system'`). -/
inductive Role where
  | user
  | assistant
  | system
deriving DecidableEq, BEq, Repr

/-- Risk level, from `risk-assessor.ts` (`'safe' | 'monitor' | 'high' | 'critical'`). -/
inductive Level where
  | safe
  | monitor
  | high
  | critical
deriving DecidableEq, BEq, Repr

/-- One conversation turn, from `types.ts` / `chat-handler.ts`.  The optional
`metadata` bag is not needed by any verified property and is omitted. -/
structure ChatMessage where
  id : String
  elderId : String
  role : Role
  content : String
  timestamp : Nat
deriving DecidableEq, Repr

/-- Output of one risk evaluation, from `risk-assessor.ts`. -/
structure RiskResult where
  level : Level
  factors : List String
deriving DecidableEq, Repr

/-! ### JavaScript string primitives used by the sources -/

/-- `s.toLowerCase()` on the character list (ASCII case mapping). -/
def lowerChars (s : String) : List Char :=
  s.data.map Char.toLower

/-- `haystack.includes(needle)` on character lists: some suffix of the
haystack starts with the needle. -/
def containsSub (haystack needle : List Char) : Bool :=
  match haystack with
  | [] => needle.isEmpty
  | _ :: t => needle.isPrefixOf haystack || containsSub t needle

/-- `content.toLowerCase().includes(word)` for a keyword literal. -/
def containsKw (content : String) (word : String) : Bool :=
  containsSub (lowerChars content) word.data

/-- `l.trim()` on a character list: strip whitespace from both ends. -/
def trimChars (l : List Char) : List Char :=
  ((l.dropWhile Char.isWhitespace).reverse.dropWhile Char.isWhitespace).reverse

/-- `s.trim()`. -/
def jsTrimStr (s : String) : String :=
  String.mk (trimChars s.data)

/-- `s.split(' ')[0]` for the use site `fullName?.split(' ')[0]`. -/
def firstWord (s : String) : String :=
  String.mk (s.data.takeWhile (fun c => c ≠ ' '))

/-- JavaScript `a || b` for an optional string `a` (both `undefined` and the
empty string are falsy). -/
def jsOrStr (a : Option String) (b : String) : String :=
  match a with
  | some s => if s = "" then b else s
  | none => b

/-- `arr.slice(-n)`: the last `n` elements (the whole list when shorter). -/
def takeLast (l : List α) (n : Nat) : List α :=
  l.drop (l.length - n)

/-! ### Risk assessor (`risk-assessor.ts`, `assessRisk`) -/

/-- Immediate-distress keywords of `assessRisk`. -/
def criticalKeywords : List String :=
  ["help", "pain", "emergency", "fall", "bleeding", "chest", "suicide", "die", "kill", "hurt"]

/-- Elevated-set (negative-mood) keywords of `assessRisk`. -/
def highKeywords : List String :=
  ["sad", "lonely", "depressed", "scared", "afraid", "nobody", "alone"]

/-- The factor string pushed for one critical-keyword match. -/
def critFactor (word : String) : String :=
  "Critical keyword detected: \"" ++ word ++ "\""

/-- The factor string pushed for a persistent negative mood. -/
def negFactor (n : Nat) : String :=
  "Persistent negative mood (" ++ toString n ++ " messages)"

/-- The threshold mapping at the end of `assessRisk`:
`>=50 → critical; >=30 → high; >=10 → monitor; else safe`. -/
def levelOf (riskScore : Nat) : Level :=
  if 50 ≤ riskScore then Level.critical
  else if 30 ≤ riskScore then Level.high
  else if 10 ≤ riskScore then Level.monitor
  else Level.safe

/-- The two nested `for` loops of `assessRisk` over the critical keywords:
accumulates `(riskScore, factors)`, adding 50 and one factor per
(message, keyword) pair whose keyword occurs in the lowercased content. -/
def scanCritical (userMessages : List ChatMessage) : Nat × List String :=
  userMessages.foldl
    (fun acc msg =>
      criticalKeywords.foldl
        (fun a word =>
          if containsKw msg.content word then (a.1 + 50, a.2 ++ [critFactor word]) else a)
        acc)
    (0, [])

/-- `assessRisk` from `risk-assessor.ts`. -/
def assessRisk (messages : List ChatMessage) : RiskResult :=
  if messages.length = 0 then ⟨Level.safe, []⟩
  else
    let recent := takeLast messages 20
    let userMessages := recent.filter (fun m => m.role == Role.user)
    let sc := scanCritical userMessages
    let negativeCount :=
      userMessages.countP (fun m => highKeywords.any (fun w => containsKw m.content w))
    let riskScore := sc.1 + (if 3 ≤ negativeCount then 30 else 0)
    let factors := sc.2 ++ (if 3 ≤ negativeCount then [negFactor negativeCount] else [])
    ⟨levelOf riskScore, factors⟩

/-! ### Content-level view of the risk assessor (for the dependence claims)

`assessRisk` reads a user message only through its `content`; the following
definitions perform the same computation directly on the list of contents. -/

/-- The nested keyword scan of `assessRisk` expressed on message contents. -/
def scanCriticalC (contents : List String) : Nat × List String :=
  contents.foldl
    (fun acc c =>
      criticalKeywords.foldl
        (fun a word =>
          if containsKw c word then (a.1 + 50, a.2 ++ [critFactor word]) else a)
        acc)
    (0, [])

/-- The body of `assessRisk` as a function of the user-authored contents alone
(no empty-window check: an empty content list already scores 0 and yields
`safe` with no factors). -/
def assessRiskOfContents (contents : List String) : RiskResult :=
  let sc := scanCriticalC contents
  let negativeCount := contents.countP (fun c => highKeywords.any (fun w => containsKw c w))
  let riskScore := sc.1 + (if 3 ≤ negativeCount then 30 else 0)
  let factors := sc.2 ++ (if 3 ≤ negativeCount then [negFactor negativeCount] else [])
  ⟨levelOf riskScore, factors⟩

/-- The contents of the user-authored messages among the last 20. -/
def userContents (messages : List ChatMessage) : List String :=
  ((takeLast messages 20).filter (fun m => m.role == Role.user)).map (fun m => m.content)

/-! ### The spec's description of the risk algorithm (for the refinement claim)

These definitions follow the wording of the specification, to be compared
with the source-derived `assessRisk`. -/

/-- Spec wording: the factor recorded for each (message, critical keyword)
pair where the keyword occurs case-insensitively in the message text, in scan
order (message-major, keyword order within a message). -/
def criticalPairFactors (contents : List String) : List String :=
  contents.flatMap (fun c =>
    criticalKeywords.filterMap (fun word =>
      if containsKw c word then some (critFactor word) else none))

/-- Spec wording: the number of user messages containing at least one
elevated-set keyword (each message counted once). -/
def negativeMoodCount (contents : List String) : Nat :=
  contents.countP (fun c => highKeywords.any (fun w => containsKw c w))

/-- The risk algorithm exactly as the spec words it: weight 50 per
(message, critical keyword) pair, weight 30 when the negative-mood count
reaches 3, thresholds ≥50/≥30/≥10 for critical/high/monitor. -/
def assessRiskSpec (messages : List ChatMessage) : RiskResult :=
  if messages.length = 0 then ⟨Level.safe, []⟩
  else
    let contents := userContents messages
    let weight := 50 * (criticalPairFactors contents).length +
      (if 3 ≤ negativeMoodCount contents then 30 else 0)
    ⟨levelOf weight,
     criticalPairFactors contents ++
       (if 3 ≤ negativeMoodCount contents then [negFactor (negativeMoodCount contents)] else [])⟩

/-! ### Companion engine (`ai-service.ts`) -/

/-- Elder profile fields read by the companion engine (`types.ts`); the
remaining personalization fields are never consulted by the verified code. -/
structure ElderProfile where
  fullName : Option String
  preferredName : Option String
deriving DecidableEq, Repr

/-- Conversation context assembled per completion call (`types.ts`). -/
structure ConversationContext where
  elderId : String
  elderProfile : ElderProfile
  recentMessages : List ChatMessage
deriving DecidableEq, Repr

/-- Structured AI response (`types.ts`): optional fields left `undefined` by
the source are `none` / `false` here. -/
structure AIResponse where
  message : String
  mood : Option String
  shouldFollowUp : Bool
  followUpDelay : Option Nat
deriving DecidableEq, Repr

/-- `context.elderProfile.preferredName || context.elderProfile.fullName?.split(' ')[0] || dflt`. -/
def displayName (p : ElderProfile) (dflt : String) : String :=
  jsOrStr p.preferredName (jsOrStr (p.fullName.map firstWord) dflt)

/-- Modelled from the spec: `personality.ts` (and with it the local heuristic
mood detector `analyzeMoodIndicators`) is not present under the source tree;
per the spec the Companion Engine detects mood from the user text via local
heuristic keyword analysis, over the mood vocabulary consumed by the chat
handler (sad, lonely, anxious, happy). -/
def analyzeMoodIndicators (text : String) : Option String :=
  let t := lowerChars text
  if containsSub t "sad".data || containsSub t "depressed".data then some "sad"
  else if containsSub t "lonely".data || containsSub t "alone".data then some "lonely"
  else if containsSub t "anxious".data || containsSub t "worried".data || containsSub t "scared".data then some "anxious"
  else if containsSub t "happy".data || containsSub t "great".data then some "happy"
  else none

/-- `generateSimulatedResponse` from `ai-service.ts`: the deterministic local
response generator used when the external completion service is not
configured.  `mood` is the already-detected mood passed in by the caller. -/
def generateSimulatedResponse (userMessage : String) (context : ConversationContext)
    (mood : Option String) : AIResponse :=
  let name := displayName context.elderProfile "dear"
  let lowerMsg := lowerChars userMessage
  let response :=
    if containsSub lowerMsg "hello".data || containsSub lowerMsg "hi ".data ||
        lowerMsg == "hi".data then
      "Hello there, " ++ name ++ "! 😊 It\x27s so lovely to hear from you. How are you feeling today?"
    else if containsSub lowerMsg "how are you".data then
      "I\x27m doing wonderfully, " ++ name ++ ", thank you for asking! It makes my day brighter when we chat. How about you - how are you feeling today?"
    else if containsSub lowerMsg "good morning".data then
      "Good morning, " ++ name ++ "! ☀️ I hope you had a restful sleep. What\x27s on your mind this beautiful morning?"
    else if containsSub lowerMsg "good night".data then
      "Good night, " ++ name ++ "! 🌙 I hope you have sweet dreams. Rest well, and I\x27ll be here whenever you need me. Take care!"
    else if mood == some "sad" || mood == some "lonely" then
      "I can hear that you might be going through a tough time, " ++ name ++ ". I\x27m here for you, and I care about you. Would you like to tell me more about what\x27s on your mind? Sometimes it helps to talk. 💝"
    else if containsSub lowerMsg "medicine".data || containsSub lowerMsg "medication".data then
      "I\x27m glad you\x27re thinking about your medication, " ++ name ++ "! Taking care of your health is so important. Have you been able to take it on time today?"
    else if containsSub lowerMsg "thank".data then
      "You\x27re most welcome, " ++ name ++ "! It\x27s always my pleasure to be here for you. 😊"
    else if containsSub lowerMsg "love".data then
      "That\x27s so wonderful to hear, " ++ name ++ "! Love is such a beautiful thing. Tell me more - what or who is bringing joy to your heart today?"
    else if containsSub lowerMsg "bored".data then
      "Oh, I understand that feeling, " ++ name ++ "! How about we chat about something interesting? Or maybe I could share a fun fact with you? Or we could play a little word game together?"
    else if containsSub lowerMsg "weather".data then
      "The weather is always a lovely topic, " ++ name ++ "! I hope it\x27s nice where you are. Do you have any plans to go outside today? A little fresh air can be wonderful!"
    else
      "That\x27s interesting, " ++ name ++ "! I love hearing from you. Tell me more - I\x27m always here to listen and chat. 😊"
  { message := response
    mood := mood
    shouldFollowUp := mood == some "sad" || mood == some "lonely"
    followUpDelay := some 30 }

/-- `generateFallbackResponse` from `ai-service.ts`: the reply produced when
the external completion call throws. -/
def generateFallbackResponse (context : ConversationContext) : AIResponse :=
  let name := displayName context.elderProfile "dear friend"
  { message := "I\x27m here with you, " ++ name ++ "! 😊 Thank you for sharing that with me. I always enjoy our conversations. Is there anything specific you\x27d like to talk about?"
    mood := none
    shouldFollowUp := false
    followUpDelay := none }

/-- Outcome of the external completion call in `generateResponse`:
the service may be unconfigured (`session` is `null`), the call may throw,
or it may return a reply text. -/
inductive CompletionOutcome where
  | unavailable
  | failed
  | ok (text : String)
deriving DecidableEq, Repr

/-- `generateResponse` from `ai-service.ts`.  `detectedMood` stands for
`analyzeMoodIndicators(userMessage)` computed at the top of the function;
`outcome` stands for the behaviour of the external completion session. -/
def generateResponse (detectedMood : Option String) (userMessage : String)
    (context : ConversationContext) (outcome : CompletionOutcome) : AIResponse :=
  match outcome with
  | .unavailable => generateSimulatedResponse userMessage context detectedMood
  | .failed => generateFallbackResponse context
  | .ok text =>
    { message := text
      mood := detectedMood
      shouldFollowUp := detectedMood == some "sad" || detectedMood == some "lonely" ||
        detectedMood == some "anxious"
      followUpDelay := if detectedMood.isSome then some 30 else none }

/-! ### Image mood analysis (`ai-service.ts`, `analyzeImageMood`) -/

/-- Outcome of the external vision call: the service may be unconfigured
(the source then simulates `happy`), the call may throw, or it may return a
response text. -/
inductive VisionOutcome where
  | notConfigured
  | failure
  | ok (text : String)
deriving DecidableEq, Repr

/-- The closed mood vocabulary validated by `analyzeImageMood`. -/
def validMoods : List String :=
  ["happy", "sad", "anxious", "lonely", "neutral", "distressed"]

/-- `result.response.text().trim().toLowerCase()` as a character list. -/
def normalizeResp (raw : String) : List Char :=
  (trimChars raw.data).map Char.toLower

/-- `analyzeImageMood` from `ai-service.ts`: exact match against the closed
vocabulary, then first-substring match, then the `neutral` default; any
thrown error also yields `neutral`. -/
def analyzeImageMood (outcome : VisionOutcome) : String :=
  match outcome with
  | .notConfigured => "happy"
  | .failure => "neutral"
  | .ok raw =>
    let text := normalizeResp raw
    if validMoods.any (fun m => m.data == text) then String.mk text
    else
      match validMoods.find? (fun m => containsSub text m.data) with
      | some m => m
      | none => "neutral"

/-! ### Realtime gateway (`chat-handler.ts`) -/

/-- Events emitted by the chat handler that the verified claims observe:
the receipt acknowledgement to the elder, the risk alert to the family
group, the camera mood result to the elder, and the mood alert to the
family group. -/
inductive Event where
  | received (messageId : String)
  | riskAlert (elderId : String) (level : Level) (factors : List String)
  | moodDetected (source : String) (mood : String)
  | moodAlertFam (elderId : String) (mood : String) (message : Option String) (source : Option String)
deriving DecidableEq, Repr

/-- The user-message append of the `chat:message` handler:
`history.push(userMessage)` followed by
`if (history.length > 50) history.splice(0, history.length - 50)`. -/
def appendUser (log : List ChatMessage) (m : ChatMessage) : List ChatMessage :=
  let h := log ++ [m]
  if 50 < h.length then h.drop (h.length - 50) else h

/-- The assistant-message append of the `chat:message` handler (and the
welcome and proactive appends): a plain `history.push(...)`, with no cap
enforcement. -/
def appendAssistant (log : List ChatMessage) (m : ChatMessage) : List ChatMessage :=
  log ++ [m]

/-- The `chat:message` handler of `chat-handler.ts` up to and including the
risk-assessment fan-out: trims the content, drops empty messages, appends the
user turn (with the 50-entry cap), acknowledges receipt, runs `assessRisk`
over the stored window and emits a risk alert to the family group when the
level is critical or high.  Returns the new stored window and the emitted
events. -/
def handleChatMessage (prior : List ChatMessage) (elderId : String) (rawContent : String)
    (msgId : String) (ts : Nat) : List ChatMessage × List Event :=
  let content := jsTrimStr rawContent
  if content = "" then (prior, [])
  else
    let userMessage : ChatMessage := ⟨msgId, elderId, Role.user, content, ts⟩
    let history := appendUser prior userMessage
    let risk := assessRisk history
    let alerts :=
      if risk.level == Level.critical || risk.level == Level.high then
        [Event.riskAlert elderId risk.level risk.factors]
      else []
    (history, Event.received msgId :: alerts)

/-- The concerning-mood set checked by the `mood:image` handler. -/
def concerningMoods : List String :=
  ["sad", "lonely", "anxious", "distressed"]

/-- The `mood:image` handler of `chat-handler.ts`, given the mood returned by
`analyzeImageMood`: always reports the camera mood back to the elder; for a
concerning mood also alerts the family group, escalating `distressed` to a
critical risk alert first. -/
def moodImageHandler (elderId : String) (detectedMood : String) : List Event :=
  Event.moodDetected "camera" detectedMood ::
    (if concerningMoods.contains detectedMood then
      (if detectedMood = "distressed" then
        [Event.riskAlert elderId Level.critical ["Distressed mood detected via camera"]]
      else []) ++ [Event.moodAlertFam elderId detectedMood none (some "camera")]
    else [])

/-! ### Per-elder service state (`chat-handler.ts` maps + `ai-service.ts` sessions) -/

/-- The two per-elder in-memory maps: `conversationHistory` from
`chat-handler.ts` and `activeSessions` from `ai-service.ts` (the cached
external completion sessions, of opaque type `σ`). -/
structure ChatServiceState (σ : Type) where
  conversationHistory : String → Option (List ChatMessage)
  activeSessions : String → Option σ

/-- `clearSession` from `ai-service.ts`: `activeSessions.delete(elderId)`. -/
def clearSession (s : ChatServiceState σ) (elderId : String) : ChatServiceState σ :=
  { s with activeSessions := fun k => if k = elderId then none else s.activeSessions k }

/-- `clearConversationHistory` from `chat-handler.ts`:
`conversationHistory.delete(elderId); clearSession(elderId)`. -/
def clearConversationHistory (s : ChatServiceState σ) (elderId : String) : ChatServiceState σ :=
  clearSession
    { s with conversationHistory := fun k => if k = elderId then none else s.conversationHistory k }
    elderId

/-- `getConversationHistory` from `chat-handler.ts`:
`conversationHistory.get(elderId) || []`. -/
def getConversationHistory (s : ChatServiceState σ) (elderId : String) : List ChatMessage :=
  (s.conversationHistory elderId).getD []

end ElderCare

/-! ### Helper lemmas -/

namespace ElderCare

lemma scanInner_eq (c : String) (kws : List String) (acc : Nat × List String) :
    kws.foldl (fun a word => if containsKw c word then (a.1 + 50, a.2 ++ [critFactor word]) else a) acc
      = (acc.1 + 50 * (kws.filterMap (fun word => if containsKw c word then some (critFactor word) else none)).length,
         acc.2 ++ kws.filterMap (fun word => if containsKw c word then some (critFactor word) else none)) := by
  induction kws generalizing acc with
  | nil => simp
  | cons w ws ih =>
    by_cases h : containsKw c w
    · simp only [List.foldl_cons, List.filterMap_cons, h, if_pos, ih, Prod.mk.injEq,
        List.length_cons]
      refine ⟨by omega, by simp⟩
    · simp only [List.foldl_cons, List.filterMap_cons, h, if_neg, ih]
      simp [h]

lemma scanCriticalC_foldl (contents : List String) (acc : Nat × List String) :
    contents.foldl
      (fun acc c => criticalKeywords.foldl
        (fun a word => if containsKw c word then (a.1 + 50, a.2 ++ [critFactor word]) else a) acc)
      acc
    = (acc.1 + 50 * (criticalPairFactors contents).length, acc.2 ++ criticalPairFactors contents) := by
  induction contents generalizing acc with
  | nil => simp [criticalPairFactors]
  | cons c cs ih =>
    rw [List.foldl_cons, ih, scanInner_eq]
    simp only [criticalPairFactors, List.flatMap_cons, Prod.mk.injEq, List.length_append]
    refine ⟨by omega, by simp⟩

lemma scanCriticalC_eq (contents : List String) :
    scanCriticalC contents = (50 * (criticalPairFactors contents).length, criticalPairFactors contents) := by
  simpa [scanCriticalC] using scanCriticalC_foldl contents (0, [])

lemma scanCritical_eq_contents (u : List ChatMessage) :
    scanCritical u = scanCriticalC (u.map (fun m => m.content)) := by
  simp [scanCritical, scanCriticalC, List.foldl_map]

lemma isPrefixOf_append_self (l t : List Char) : l.isPrefixOf (l ++ t) = true := by
  induction l with
  | nil => simp [List.isPrefixOf]
  | cons a as ih => simp [List.isPrefixOf, ih]

lemma containsSub_refl (l : List Char) : containsSub l l = true := by
  cases l with
  | nil => simp [containsSub, List.isEmpty]
  | cons a t =>
    have h := isPrefixOf_append_self (a :: t) []
    simp at h
    simp [containsSub, h]

lemma takeLast_of_le (l : List α) (n : Nat) (h : l.length ≤ n) : takeLast l n = l := by
  simp [takeLast, Nat.sub_eq_zero_of_le h]

lemma takeLast_length_le (l : List α) (n : Nat) : (takeLast l n).length ≤ n := by
  simp [takeLast]
  omega

lemma takeLast_idem (l : List α) (n : Nat) : takeLast (takeLast l n) n = takeLast l n :=
  takeLast_of_le _ _ (takeLast_length_le l n)

lemma takeLast_append (l t : List α) (n : Nat) :
    takeLast (takeLast l n ++ t) n = takeLast (l ++ t) n := by
  unfold takeLast
  have h1 : l.drop (l.length - n) ++ t = (l ++ t).drop (l.length - n) :=
    (List.drop_append_of_le_length (Nat.sub_le _ _)).symm
  rw [h1, List.drop_drop]
  congr 1
  simp [List.length_drop, List.length_append]
  omega

lemma appendUser_eq_takeLast (log : List ChatMessage) (m : ChatMessage) :
    appendUser log m = takeLast (log ++ [m]) 50 := by
  simp only [appendUser, takeLast]
  split
  · rfl
  · next h =>
    have h0 : (log ++ [m]).length - 50 = 0 := by omega
    rw [h0, List.drop_zero]

lemma appendUser_length_le (log : List ChatMessage) (m : ChatMessage) :
    (appendUser log m).length ≤ 50 := by
  rw [appendUser_eq_takeLast]
  exact takeLast_length_le _ _

lemma foldl_appendUser (msgs : List ChatMessage) (init : List ChatMessage)
    (h : init.length ≤ 50) :
    List.foldl appendUser init msgs = takeLast (init ++ msgs) 50 := by
  induction msgs generalizing init with
  | nil => simpa using (takeLast_of_le _ _ h).symm
  | cons m ms ih =>
    rw [List.foldl_cons, ih _ (appendUser_length_le _ _), appendUser_eq_takeLast, takeLast_append]
    simp

lemma levelOf_cases (k : Nat) (c : Prop) [Decidable c] :
    levelOf (50 * k + (if c then 30 else 0)) = Level.safe ∨
    levelOf (50 * k + (if c then 30 else 0)) = Level.high ∨
    levelOf (50 * k + (if c then 30 else 0)) = Level.critical := by
  rcases k with _ | k
  · by_cases hc : c <;> simp [hc, levelOf]
  · right; right
    unfold levelOf
    rw [if_pos (by omega)]

lemma assessRisk_eq_spec (messages : List ChatMessage) :
    assessRisk messages = assessRiskSpec messages := by
  unfold assessRisk assessRiskSpec
  by_cases h : messages.length = 0
  · simp [h]
  · simp only [h, if_neg, if_false, ite_false]
    rw [scanCritical_eq_contents, scanCriticalC_eq]
    simp [userContents, negativeMoodCount, List.countP_map, Function.comp_def]

lemma assessRisk_eq_ofContents (messages : List ChatMessage) :
    assessRisk messages = assessRiskOfContents (userContents messages) := by
  unfold assessRisk assessRiskOfContents
  by_cases h : messages.length = 0
  · have h0 : messages = [] := List.length_eq_zero.mp h
    subst h0
    simp [userContents, takeLast, scanCriticalC, levelOf]
  · simp only [h, if_neg, if_false, ite_false]
    rw [scanCritical_eq_contents]
    simp [userContents, List.countP_map, Function.comp_def]

lemma assessRisk_takeLast (messages : List ChatMessage) :
    assessRisk messages = assessRisk (takeLast messages 20) := by
  unfold assessRisk
  by_cases h : messages.length = 0
  · have h0 : messages = [] := List.length_eq_zero.mp h
    subst h0
    simp [takeLast]
  · have h2 : ¬ (takeLast messages 20).length = 0 := by
      simp [takeLast]
      omega
    simp only [h, h2, if_neg, if_false, ite_false]
    rw [takeLast_idem]

end ElderCare

/-! ### Claims about the risk assessor -/

namespace ElderCare

/-- Claim C1 — `assessRisk` computes exactly the spec's algorithm: empty
window gives `safe` with no factors; otherwise weight 50 and one factor per
(user message, critical keyword) occurrence pair, weight 30 and one factor
when at least 3 user messages contain an elevated-set keyword, and the
total weight maps through the fixed thresholds ≥50/≥30/≥10 to
critical/high/monitor, else safe. -/
theorem c1_assessRisk_follows_spec_algorithm (messages : List ChatMessage) :
    assessRisk messages = assessRiskSpec messages :=
  assessRisk_eq_spec messages

/-- Claim C7 (counterexample) — removing a non-user (assistant) message can
change the result of `assessRisk`: with 21 stored messages the user message
saying "help" falls outside the last-20 window (level `safe`), and removing
one assistant message pulls it back in (level `critical`). -/
theorem c7_counterexample :
    (⟨"a", "e", Role.assistant, "x", 0⟩ : ChatMessage).role ≠ Role.user ∧
    assessRisk ((⟨"u", "e", Role.user, "help", 0⟩ : ChatMessage) ::
        List.replicate 20 ⟨"a", "e", Role.assistant, "x", 0⟩) ≠
      assessRisk ((⟨"u", "e", Role.user, "help", 0⟩ : ChatMessage) ::
        List.replicate 19 ⟨"a", "e", Role.assistant, "x", 0⟩) := by
  constructor
  · decide
  · decide

/-- Claim C7 (amended) — `assessRisk` depends only on the last 20 messages,
and within those only on the contents of the user-authored messages:
`assessRisk msgs = assessRisk (last 20 of msgs)`, and the whole result is a
function of the user-authored contents of that window (so changing any
non-user message, or any message before the window, never changes the
result; removing one, however, can shift the window). -/
theorem c7_window_dependence (messages : List ChatMessage) :
    assessRisk messages = assessRisk (takeLast messages 20) ∧
    assessRisk messages = assessRiskOfContents (userContents messages) :=
  ⟨assessRisk_takeLast messages, assessRisk_eq_ofContents messages⟩

/-- Claim C10 — `assessRisk` never returns level `monitor`: every score is
`50·k + (30 or 0)`, never in `[10, 30)`, so the level is always `safe`,
`high` or `critical`. -/
theorem c10_no_monitor_level (messages : List ChatMessage) :
    (assessRisk messages).level ≠ Level.monitor ∧
    ((assessRisk messages).level = Level.safe ∨ (assessRisk messages).level = Level.high ∨
      (assessRisk messages).level = Level.critical) := by
  rw [assessRisk_eq_spec]
  unfold assessRiskSpec
  by_cases h0 : messages.length = 0
  · simp [h0, levelOf]
  · simp only [h0, if_false, ite_false]
    rcases levelOf_cases (criticalPairFactors (userContents messages)).length
        (3 ≤ negativeMoodCount (userContents messages)) with h1 | h1 | h1 <;>
      simp [h1]

end ElderCare

namespace ElderCare

/-- Claim C2 — in the `chat:message` handler a risk alert carrying the elder
id, the assessed level and the factor list is emitted to the family-observer
group exactly when the risk assessed over the stored window is critical or
high; and the concrete single-message window "I feel very lonely and I want
to die" produces exactly one critical risk alert. -/
theorem c2_chat_message_risk_alert (prior : List ChatMessage) (elderId rawContent msgId : String)
    (ts : Nat) :
    (Event.riskAlert elderId
        (assessRisk (handleChatMessage prior elderId rawContent msgId ts).1).level
        (assessRisk (handleChatMessage prior elderId rawContent msgId ts).1).factors ∈
        (handleChatMessage prior elderId rawContent msgId ts).2 ↔
      (jsTrimStr rawContent ≠ "" ∧
        ((assessRisk (handleChatMessage prior elderId rawContent msgId ts).1).level = Level.critical ∨
         (assessRisk (handleChatMessage prior elderId rawContent msgId ts).1).level = Level.high))) ∧
    handleChatMessage [] "elder-demo" "I feel very lonely and I want to die" "m1" 0 =
      ([⟨"m1", "elder-demo", Role.user, "I feel very lonely and I want to die", 0⟩],
       [Event.received "m1",
        Event.riskAlert "elder-demo" Level.critical ["Critical keyword detected: \"die\""]]) := by
  constructor
  · by_cases h : jsTrimStr rawContent = ""
    · simp [handleChatMessage, h]
    · simp only [handleChatMessage, h, if_neg, if_false, ite_false, ne_eq, not_false_iff, true_and]
      cases hl : (assessRisk (appendUser prior ⟨msgId, elderId, Role.user, jsTrimStr rawContent, ts⟩)).level <;>
        simp [hl] <;> decide
  · decide

end ElderCare

namespace ElderCare

/-- Claim C3 — `analyzeImageMood` always returns a member of the closed mood
set: an exact (trimmed, lowercased) match is returned as-is, a response that
contains exactly one set member resolves to that member, any response
containing no member resolves to `neutral`, and a failure of the vision call
resolves to `neutral`. -/
theorem c3_analyzeImageMood_closed_set (outcome : VisionOutcome) (raw : String) (m : String) :
    analyzeImageMood outcome ∈ validMoods ∧
    (m ∈ validMoods → normalizeResp raw = m.data → analyzeImageMood (.ok raw) = m) ∧
    (m ∈ validMoods → containsSub (normalizeResp raw) m.data = true →
      (∀ m2 ∈ validMoods, containsSub (normalizeResp raw) m2.data = true → m2 = m) →
      analyzeImageMood (.ok raw) = m) ∧
    ((∀ m2 ∈ validMoods, containsSub (normalizeResp raw) m2.data = false) →
      analyzeImageMood (.ok raw) = "neutral") ∧
    analyzeImageMood .failure = "neutral" := by
  refine ⟨?_, ?_, ?_, ?_, rfl⟩
  · cases outcome with
    | notConfigured => decide
    | failure => decide
    | ok raw' =>
      unfold analyzeImageMood
      by_cases hany : validMoods.any (fun x => x.data == normalizeResp raw') = true
      · obtain ⟨m', hm', hdata⟩ := List.any_eq_true.mp hany
        have hdq : m'.data = normalizeResp raw' := by simpa using hdata
        simp only [hany, if_pos, if_true]
        rw [← hdq]
        exact hm'
      · simp only [hany, if_neg, if_false, Bool.not_eq_true, ite_false]
        cases hfind : validMoods.find? (fun x => containsSub (normalizeResp raw') x.data) with
        | some m' =>
          simp only [hfind]
          exact List.mem_of_find?_eq_some hfind
        | none => simp only [hfind]; decide
  · intro hm heq
    unfold analyzeImageMood
    have hany : validMoods.any (fun x => x.data == normalizeResp raw) = true :=
      List.any_eq_true.mpr ⟨m, hm, by rw [heq]; exact beq_self_eq_true m.data⟩
    simp only [hany, if_pos, if_true]
    rw [heq]
  · intro hm hcont huniq
    unfold analyzeImageMood
    by_cases hany : validMoods.any (fun x => x.data == normalizeResp raw) = true
    · obtain ⟨m', hm', hdata⟩ := List.any_eq_true.mp hany
      have hdq : m'.data = normalizeResp raw := by simpa using hdata
      have hm'm : m' = m := by
        apply huniq m' hm'
        rw [← hdq]
        exact containsSub_refl m'.data
      simp only [hany, if_pos, if_true]
      rw [← hdq, hm'm]
    · simp only [hany, if_neg, if_false, Bool.not_eq_true, ite_false]
      cases hfind : validMoods.find? (fun x => containsSub (normalizeResp raw) x.data) with
      | some m' =>
        simp only [hfind]
        exact huniq m' (List.mem_of_find?_eq_some hfind) (by simpa using List.find?_some hfind)
      | none =>
        exfalso
        have := List.find?_eq_none.mp hfind m hm
        simp [hcont] at this
  · intro hnone
    unfold analyzeImageMood
    have hany : ¬ validMoods.any (fun x => x.data == normalizeResp raw) = true := by
      intro hany
      obtain ⟨m', hm', hdata⟩ := List.any_eq_true.mp hany
      have hdq : m'.data = normalizeResp raw := by simpa using hdata
      have := hnone m' hm'
      rw [← hdq] at this
      rw [containsSub_refl] at this
      simp at this
    have hfind : validMoods.find? (fun x => containsSub (normalizeResp raw) x.data) = none :=
      List.find?_eq_none.mpr (fun x hx => by simp [hnone x hx])
    simp only [hany, if_neg, if_false, Bool.not_eq_true, ite_false, hfind]

/-- Claim C3 (witness) — concrete instances: an exact match after trim and
lowercase, a sentence containing exactly the member "sad", a sentence
containing no member, and an outright failure. -/
theorem c3_analyzeImageMood_closed_set_witness :
    analyzeImageMood (.ok "  SAD ") = "sad" ∧
    analyzeImageMood (.ok "I think they look quite sad today") = "sad" ∧
    analyzeImageMood (.ok "I think they look quite joyful today") = "neutral" ∧
    analyzeImageMood .failure = "neutral" :=
  ⟨(c3_analyzeImageMood_closed_set .failure "  SAD " "sad").2.1 (by decide) (by decide),
   (c3_analyzeImageMood_closed_set .failure "I think they look quite sad today" "sad").2.2.1
     (by decide) (by decide) (by decide),
   (c3_analyzeImageMood_closed_set .failure "I think they look quite joyful today" "sad").2.2.2.1
     (by decide),
   (c3_analyzeImageMood_closed_set .failure "" "sad").2.2.2.2⟩

end ElderCare

namespace ElderCare

lemma concat3_ne_empty (a b c : String) (h : a.data ≠ []) : a ++ b ++ c ≠ "" := by
  intro hcontra
  apply h
  have hd := congrArg String.data hcontra
  simp only [String.data_append] at hd
  have : a.data = [] ∧ b.data = [] ∧ c.data = [] := by
    constructor
    · exact List.append_eq_nil.mp (List.append_eq_nil.mp hd).1 |>.1
    · exact ⟨(List.append_eq_nil.mp (List.append_eq_nil.mp hd).1).2, (List.append_eq_nil.mp hd).2⟩
  exact this.1

lemma generateSimulatedResponse_message_ne (userMessage : String) (context : ConversationContext)
    (mood : Option String) : (generateSimulatedResponse userMessage context mood).message ≠ "" := by
  unfold generateSimulatedResponse
  dsimp only
  split_ifs <;> exact concat3_ne_empty _ _ _ (by decide)

/-- Claim C4 — `generateResponse` never propagates an external failure: when
the completion service is unavailable or the call throws, it returns a
locally generated response with a non-empty message; and with the service
unavailable the reply to "hello" is the greeting fallback (it starts with
"Hello there, ").  Quantified over every possible detected mood. -/
theorem c4_generateResponse_never_propagates_failure (detectedMood : Option String)
    (userMessage : String) (context : ConversationContext) :
    (generateResponse detectedMood userMessage context .unavailable).message ≠ "" ∧
    (generateResponse detectedMood userMessage context .failed).message ≠ "" ∧
    "Hello there, ".data.isPrefixOf
      (generateResponse detectedMood "hello" context .unavailable).message.data = true := by
  refine ⟨generateSimulatedResponse_message_ne _ _ _, ?_, ?_⟩
  · unfold generateResponse generateFallbackResponse
    dsimp only
    exact concat3_ne_empty _ _ _ (by decide)
  · unfold generateResponse generateSimulatedResponse
    have hcond : (containsSub (lowerChars "hello") "hello".data ||
        containsSub (lowerChars "hello") "hi ".data || (lowerChars "hello" == "hi".data)) = true := by
      decide
    dsimp only
    rw [hcond]
    simp only [if_true, String.data_append, List.append_assoc]
    exact isPrefixOf_append_self _ _

end ElderCare

namespace ElderCare

/-- Claim C6 (counterexample) — on the local simulated-response path a
detected mood of `anxious` does NOT set `shouldFollowUp`: the simulated
generator only checks sad/lonely.  The mood detector is modelled from the
spec (`personality.ts` is absent from the source tree). -/
theorem c6_counterexample :
    analyzeMoodIndicators "I am very anxious today" = some "anxious" ∧
    (generateResponse (analyzeMoodIndicators "I am very anxious today")
        "I am very anxious today"
        ⟨"elder-demo", ⟨some "Grandmother Mary", some "Mary"⟩, []⟩
        .unavailable).shouldFollowUp = false := by
  constructor
  · decide
  · decide

/-- Claim C6 (amended) — on the external-service path `shouldFollowUp` is set
exactly when the detected mood is sad, lonely or anxious, and
`followUpDelay` is 30 whenever any mood was detected; on the local
simulated-response path `shouldFollowUp` is set exactly when the detected
mood is sad or lonely (anxious does not set it there), and `followUpDelay`
is always 30. -/
theorem c6_followUp_policy (detectedMood : Option String) (userMessage : String)
    (context : ConversationContext) (text : String) :
    ((generateResponse detectedMood userMessage context (.ok text)).shouldFollowUp =
      (detectedMood == some "sad" || detectedMood == some "lonely" ||
        detectedMood == some "anxious")) ∧
    ((generateResponse detectedMood userMessage context .unavailable).shouldFollowUp =
      (detectedMood == some "sad" || detectedMood == some "lonely")) ∧
    ((generateResponse detectedMood userMessage context (.ok text)).followUpDelay =
      if detectedMood.isSome then some 30 else none) ∧
    ((generateResponse detectedMood userMessage context .unavailable).followUpDelay = some 30) :=
  ⟨rfl, rfl, rfl, rfl⟩

end ElderCare

namespace ElderCare

/-- Claim C5 (counterexample) — the 50-entry cap is enforced only by the
user-message append: starting from a full log of 50 (reachable via 50
user-message appends), one assistant append leaves 51 entries, so the cap
does not hold after every operation that adds to the log. -/
theorem c5_counterexample :
    (appendAssistant
        (List.foldl appendUser [] (List.replicate 50 ⟨"m", "e", Role.user, "hi", 0⟩))
        ⟨"a", "e", Role.assistant, "x", 0⟩).length = 51 ∧
    ¬ (appendAssistant
        (List.foldl appendUser [] (List.replicate 50 ⟨"m", "e", Role.user, "hi", 0⟩))
        ⟨"a", "e", Role.assistant, "x", 0⟩).length ≤ 50 := by
  rw [foldl_appendUser _ _ (by simp)]
  simp [appendAssistant, takeLast]

/-- Claim C5 (amended) — the user-message append does enforce the cap with
FIFO eviction (it keeps exactly the most recent 50 of the extended log), so
after any sequence of 60 user-message appends to one elder the log holds
exactly the most recent 50 messages in their original relative order; but
the assistant, welcome and proactive appends are plain pushes that do not
enforce the cap, so the log can transiently exceed 50 until the next
user-message append. -/
theorem c5_user_append_cap (log : List ChatMessage) (m : ChatMessage)
    (msgs : List ChatMessage) :
    appendUser log m = takeLast (log ++ [m]) 50 ∧
    (appendUser log m).length ≤ 50 ∧
    (msgs.length = 60 → List.foldl appendUser [] msgs = msgs.drop 10) := by
  refine ⟨appendUser_eq_takeLast log m, appendUser_length_le log m, ?_⟩
  intro h60
  rw [foldl_appendUser _ _ (by simp), List.nil_append]
  simp only [takeLast, h60]

/-- Claim C5 (witness) — 60 concrete user appends leave exactly the last 50
messages. -/
theorem c5_user_append_cap_witness :
    (List.replicate 60 (⟨"m", "e", Role.user, "hi", 0⟩ : ChatMessage)).length = 60 ∧
    List.foldl appendUser [] (List.replicate 60 ⟨"m", "e", Role.user, "hi", 0⟩) =
      (List.replicate 60 (⟨"m", "e", Role.user, "hi", 0⟩ : ChatMessage)).drop 10 :=
  ⟨by simp,
   (c5_user_append_cap [] ⟨"m", "e", Role.user, "hi", 0⟩ _).2.2 (by simp)⟩

end ElderCare

namespace ElderCare

/-- Claim C8 — the `mood:image` handler always reports the camera mood back
to the elder; it alerts the family group exactly for the concerning moods
sad/lonely/anxious/distressed; and the only risk alert it can emit is the
fixed camera-sourced critical alert, emitted exactly when the mood is
`distressed` — independent of the text-based `assessRisk` (the handler never
invokes it). -/
theorem c8_mood_image_handler (elderId m : String) (lvl : Level) (f : List String) :
    Event.moodDetected "camera" m ∈ moodImageHandler elderId m ∧
    (Event.moodAlertFam elderId m none (some "camera") ∈ moodImageHandler elderId m ↔
      concerningMoods.contains m = true) ∧
    (Event.riskAlert elderId lvl f ∈ moodImageHandler elderId m ↔
      (m = "distressed" ∧ lvl = Level.critical ∧ f = ["Distressed mood detected via camera"])) := by
  by_cases hd : m = "distressed"
  · subst hd
    refine ⟨by simp [moodImageHandler], by simp [moodImageHandler], ?_⟩
    simp [moodImageHandler]
    intro _ _
    decide
  · by_cases hc : concerningMoods.contains m = true
    · simp [moodImageHandler, hc, hd]
    · simp [moodImageHandler, hc, hd]

/-- Claim C9 — clearing the conversation history of an elder empties that
elder's log and removes the companion engine's cached completion session for
the same elder, while leaving every other elder's log and cached session
unchanged. -/
theorem c9_clear_history (σ : Type) (s : ChatServiceState σ) (elderId other : String) :
    getConversationHistory (clearConversationHistory s elderId) elderId = [] ∧
    (clearConversationHistory s elderId).activeSessions elderId = none ∧
    (other ≠ elderId →
      getConversationHistory (clearConversationHistory s elderId) other =
        getConversationHistory s other ∧
      (clearConversationHistory s elderId).activeSessions other = s.activeSessions other) := by
  refine ⟨?_, ?_, fun h => ⟨?_, ?_⟩⟩
  · simp [getConversationHistory, clearConversationHistory, clearSession]
  · simp [clearConversationHistory, clearSession]
  · simp [getConversationHistory, clearConversationHistory, clearSession, h]
  · simp [clearConversationHistory, clearSession, h]

/-- A concrete two-elder service state used to witness the clear-history
claim. -/
def sampleServiceState : ChatServiceState Nat :=
  { conversationHistory := fun k =>
      if k = "elder-demo" then some [⟨"1", "elder-demo", Role.user, "hi", 0⟩]
      else if k = "other" then some [⟨"2", "other", Role.user, "yo", 0⟩]
      else none
    activeSessions := fun k =>
      if k = "elder-demo" then some 1 else if k = "other" then some 2 else none }

/-- Claim C9 (witness) — clearing `elder-demo` empties its log and session
and leaves elder `other` untouched. -/
theorem c9_clear_history_witness :
    getConversationHistory (clearConversationHistory sampleServiceState "elder-demo")
      "elder-demo" = [] ∧
    (clearConversationHistory sampleServiceState "elder-demo").activeSessions "elder-demo" = none ∧
    getConversationHistory (clearConversationHistory sampleServiceState "elder-demo") "other" =
      getConversationHistory sampleServiceState "other" ∧
    (clearConversationHistory sampleServiceState "elder-demo").activeSessions "other" =
      sampleServiceState.activeSessions "other" :=
  ⟨(c9_clear_history Nat sampleServiceState "elder-demo" "other").1,
   (c9_clear_history Nat sampleServiceState "elder-demo" "other").2.1,
   ((c9_clear_history Nat sampleServiceState "elder-demo" "other").2.2 (by decide)).1,
   ((c9_clear_history Nat sampleServiceState "elder-demo" "other").2.2 (by decide)).2⟩

end ElderCare
